import Mathlib

/-!
Shallow embedding of `src/gremlinclient.js` (Linkurious/gremlin-javascript):
a WebSocket client for Gremlin Server.  The client keeps a correlation table
`this.commands` (a plain JS object keyed by requestId), a FIFO queue
`this.queue` of commands awaiting transmission, a `connected` flag and a
one-shot `lastAuthenticationReqId` slot.  Transport and sink interactions are
modelled as an explicit list of emitted effects; JS objects keyed by string
are modelled as association lists with JS-object semantics (insert-or-replace,
lookup, delete).
-/

namespace Gremlin

/-- JS-object semantics on association lists: `obj[k]`. -/
def objGet (m : List (String × α)) (k : String) : Option α :=
  (m.find? (fun p => p.1 = k)).map (·.2)

/-- JS-object semantics: `obj[k] = v` (replace in place, or append a new key). -/
def objSet (m : List (String × α)) (k : String) (v : α) : List (String × α) :=
  if m.any (fun p => p.1 = k) then
    m.map (fun p => if p.1 = k then (k, v) else p)
  else
    m ++ [(k, v)]

/-- JS-object semantics: `delete obj[k]`. -/
def objDelete (m : List (String × α)) (k : String) : List (String × α) :=
  m.filter (fun p => p.1 ≠ k)

/-- The status envelope of an inbound frame: `{ status: { code, message } }`. -/
structure FrameStatus where
  code : Nat
  message : String
deriving DecidableEq, Repr

/-- An inbound frame (the parsed `rawMessage` of `handleMessage`):
`{ requestId, status: { code, message }, result?: { data: [...] } }`.
Logical result values are opaque, modelled as `Nat`; a frame with no
`result.data` carries the empty list. -/
structure RawMessage where
  requestId : String
  status : FrameStatus
  resultData : List Nat
deriving DecidableEq, Repr

/-- The part of a command's protocol message that the connection state machine
reads: `command.message.requestId` (correlation key) and `command.message.op`
(the authentication-override test in `sendCommand`). -/
structure CommandMsg where
  requestId : String
  op : String
deriving DecidableEq, Repr

/-- A pending command: its protocol message plus its `messageStream` result
sink, identified by an opaque sink id (each `buildCommand` call creates a
fresh `MessageStream` object). -/
structure Command where
  message : CommandMsg
  sinkId : Nat
deriving DecidableEq, Repr

/-- Observable effects of one event-handler run: pushes and terminations on a
command's result sink (`messageStream.push(rawMessage)`,
`messageStream.push(null)`, `messageStream.emit('error', e)`), transport sends
(`this.ws.send(...)`) and the client-level `'connect'` event.  An error
carries the `Error` message string and the optional `details` payload attached
to the `Error` object (`error.details = reason.details`), the close detail
being modelled as an opaque `Nat`. -/
inductive Effect where
  | sinkPush (sinkId : Nat) (m : RawMessage)
  | sinkNull (sinkId : Nat)
  | sinkError (sinkId : Nat) (emsg : String) (details : Option Nat)
  | wsSend (m : CommandMsg)
  | emitConnect
deriving DecidableEq, Repr

/-- The mutable per-client state written by the event handlers:
`this.connected`, `this.queue`, `this.commands`,
`this.lastAuthenticationReqId`. -/
structure ClientState where
  connected : Bool
  queue : List Command
  commands : List (String × Command)
  lastAuthenticationReqId : Option String
deriving DecidableEq, Repr

/-- State at the end of the constructor: `connected = false`, empty queue,
empty correlation table, `lastAuthenticationReqId = null`. -/
def initialState : ClientState :=
  { connected := false, queue := [], commands := [], lastAuthenticationReqId := none }

/-- Correlation token `handleMessage` uses for a frame: the pending
authentication override (`this.lastAuthenticationReqId`) when non-null,
otherwise the frame's own `rawMessage.requestId`. -/
def effectiveRequestId (s : ClientState) (raw : RawMessage) : String :=
  match s.lastAuthenticationReqId with
  | some reqId => reqId
  | none => raw.requestId

/-- Reset `this.lastAuthenticationReqId` to null.  The source assigns null
only inside the branch where the slot was non-null; in the other branch the
slot is already null, so the unconditional reset yields the same state. -/
def consumeAuthSlot (s : ClientState) : ClientState :=
  { s with lastAuthenticationReqId := none }

/-- Embeds `GremlinClient.prototype.handleMessage`: take the
`lastAuthenticationReqId` slot if set (overriding the frame's requestId) and
reset it, look the requestId up in `this.commands`, ignore the frame when no
command matches, otherwise dispatch on `rawMessage.status.code`:
200 delete + push frame + push null; 204 delete + push null;
206 push frame only; default delete + emit error whose message is
`rawMessage.status.message + ' (Error ' + statusCode + ')'`. -/
def handleMessage (s : ClientState) (raw : RawMessage) : ClientState × List Effect :=
  let requestId := effectiveRequestId s raw
  let s1 := consumeAuthSlot s
  match objGet s1.commands requestId with
  | none => (s1, [])
  | some command =>
    match raw.status.code with
    | 200 =>
      ({ s1 with commands := objDelete s1.commands requestId },
       [Effect.sinkPush command.sinkId raw, Effect.sinkNull command.sinkId])
    | 204 =>
      ({ s1 with commands := objDelete s1.commands requestId },
       [Effect.sinkNull command.sinkId])
    | 206 =>
      (s1, [Effect.sinkPush command.sinkId raw])
    | code =>
      ({ s1 with commands := objDelete s1.commands requestId },
       [Effect.sinkError command.sinkId
          (raw.status.message ++ " (Error " ++ toString code ++ ")") none])

/-- Embeds `GremlinClient.prototype.sendMessage`, seen from the state machine: the
formatted message (JSON or binary per `message.args.binary`) is handed to
`this.ws.send`; the frame-packing itself is modelled separately by
`packMessageToBinary`. -/
def sendMessage (m : CommandMsg) : Effect :=
  Effect.wsSend m

/-- Embeds `GremlinClient.prototype.executeQueue`: shift commands off `this.queue`
one at a time (First In, First Out) and send each, until the queue is
empty. -/
def executeQueue (s : ClientState) : ClientState × List Effect :=
  ({ s with queue := [] }, s.queue.map (fun command => sendMessage command.message))

/-- Embeds `GremlinClient.prototype.onConnectionOpen`: `this.connected = true`, then
`this.emit('connect')` (synchronous EventEmitter dispatch), then
`this.executeQueue()`. -/
def onConnectionOpen (s : ClientState) : ClientState × List Effect :=
  let s1 := { s with connected := true }
  let queueRun := executeQueue s1
  (queueRun.1, Effect.emitConnect :: queueRun.2)

/-- Embeds `GremlinClient.prototype.cancelPendingCommands`: build one `Error` from
`reason.message` with `error.details = reason.details`, empty `this.queue`
(`this.queue.length = 0`), replace `this.commands` with a fresh empty object,
then emit that same error on the `messageStream` of every command that was in
the old table (`Object.keys(commands).forEach`, keys in insertion order). -/
def cancelPendingCommands (s : ClientState) (reasonMessage : String) (reasonDetails : Nat) :
    ClientState × List Effect :=
  let commands := s.commands
  ({ s with queue := [], commands := [] },
   commands.map (fun kv => Effect.sinkError kv.2.sinkId reasonMessage (some reasonDetails)))

/-- Embeds `GremlinClient.prototype.handleDisconnection`: on the WebSocket close
event, `cancelPendingCommands({ message: 'WebSocket closed', details: event })`.
Nothing else: in particular `this.connected` is not written. -/
def handleDisconnection (s : ClientState) (event : Nat) : ClientState × List Effect :=
  cancelPendingCommands s "WebSocket closed" event

/-- Embeds `GremlinClient.prototype.sendCommand`: register the command in
`this.commands` under its `message.requestId`; if `message.op` is
`'authentication'`, record the requestId in `this.lastAuthenticationReqId`;
then either send immediately (when `this.connected`) or push onto
`this.queue`. -/
def sendCommand (s : ClientState) (command : Command) : ClientState × List Effect :=
  let s1 := { s with commands := objSet s.commands command.message.requestId command }
  let s2 :=
    if command.message.op = "authentication" then
      { s1 with lastAuthenticationReqId := some command.message.requestId }
    else s1
  if s2.connected then
    (s2, [sendMessage command.message])
  else
    ({ s2 with queue := s2.queue ++ [command] }, [])

/-! ### Command builder (`buildCommand`)

The caller-supplied `message` overrides object and its nested `args` bag are
JS objects with possibly-absent fields, modelled as structures of `Option`
fields (`none` = the property is `undefined`).  `_.defaults(dst, src)` is
lodash's `defaults`: it assigns each property of `src` to `dst` only when the
property of `dst` is `undefined`, MUTATING `dst` in place and returning it —
so after `buildCommand` the object it returns is the very object the caller
passed in (when one was passed). -/

/-- Bound script parameters; contents opaque to the client. -/
abbrev Bindings := List (String × String)

/-- The per-call `args` bag with possibly-absent properties. -/
structure ArgsObj where
  gremlin : Option String := none
  bindings : Option Bindings := none
  accept : Option String := none
  language : Option String := none
  binary : Option Bool := none
  session : Option String := none
deriving DecidableEq, Repr

/-- The per-call message overrides object with possibly-absent properties.
`args` is the nested args bag. -/
structure MessageObj where
  requestId : Option String := none
  processor : Option String := none
  op : Option String := none
  args : Option ArgsObj := none
deriving DecidableEq, Repr

/-- Client-level configuration read by `buildCommand`: `this.options.accept`,
`this.options.language`, `this.options.processor`, `this.options.op`,
`this.useSession` and `this.sessionId`. -/
structure ClientConfig where
  accept : String
  language : String
  processor : String
  op : String
  useSession : Bool
  sessionId : String
deriving DecidableEq, Repr

/-- Lodash `_.defaults(message && message.args || \x7b}, { gremlin, bindings, accept,
language, binary: false })`: fill each absent property of the destination
args bag from the source defaults. -/
def argsDefaults (dst : ArgsObj) (gremlin : String) (bindings : Bindings)
    (accept language : String) (binary : Bool) : ArgsObj :=
  { gremlin := some (dst.gremlin.getD gremlin)
    bindings := some (dst.bindings.getD bindings)
    accept := some (dst.accept.getD accept)
    language := some (dst.language.getD language)
    binary := some (dst.binary.getD binary)
    session := dst.session }

/-- Lodash `_.defaults(message || \x7b}, { requestId: guid, processor, op, args })`:
fill each absent top-level property of the destination message object.  The
`args` source value is the (already defaulted) args bag: when the destination
had its own `args` property, that property is the same object the args
defaulting mutated in place, so the result's `args` is that bag in either
case. -/
def messageDefaults (dst : MessageObj) (requestId processor op : String)
    (args : ArgsObj) : MessageObj :=
  { requestId := some (dst.requestId.getD requestId)
    processor := some (dst.processor.getD processor)
    op := some (dst.op.getD op)
    args := some args }

/-- JS disjunction `a || b` on strings: `b` when `a` is falsy (the empty string). -/
def jsOrString (a b : String) : String :=
  if a = "" then b else a

/-- Embeds `GremlinClient.prototype.buildCommand`, on an already-textual script
(`extractFunctionBody` handles the callable case separately).  `uuid.v1()` is
the external node-uuid generator; its output for this call is passed in as
`guid` (the library guarantees distinct tokens across calls).  Returns the
command's protocol message; its `messageStream` is a fresh sink object not
modelled here.  Note that both `_.defaults` calls mutate their destination
in place and session mode assigns `command.message.processor` and
`command.message.args.session` directly, so the returned message IS the
caller-supplied overrides object (fields filled) whenever one was passed. -/
def buildCommand (cfg : ClientConfig) (guid : String) (script : String)
    (bindings : Option Bindings) (message : Option MessageObj) : MessageObj :=
  let bindings := bindings.getD []
  let argsDst : ArgsObj := (message.bind (·.args)).getD {}
  let args := argsDefaults argsDst script bindings cfg.accept cfg.language false
  let msgDst : MessageObj := message.getD {}
  let msg := messageDefaults msgDst guid cfg.processor cfg.op args
  if cfg.useSession then
    { msg with
      processor := some (jsOrString (msg.processor.getD "") (jsOrString cfg.processor "session"))
      args := some { args with session := some cfg.sessionId } }
  else
    msg

/-- State of the caller-supplied message-overrides object AFTER `buildCommand`
returns: because lodash `defaults` mutates its destination in place and the
session branch assigns into `command.message` / `command.message.args`
directly, the caller's object afterwards is exactly the message object
`buildCommand` returns. -/
def messageObjAfterBuild (cfg : ClientConfig) (guid : String) (script : String)
    (bindings : Option Bindings) (m : MessageObj) : MessageObj :=
  buildCommand cfg guid script bindings (some m)

/-- State of the caller-supplied `bindings` object after `buildCommand`
returns: `bindings` is only read (stored by reference into `args.bindings` by
`_.defaults` when absent there); no property of it is ever written. -/
def bindingsAfterBuild (bindings : Bindings) : Bindings :=
  bindings

/-- `buildCommand` as a method of the full client: it reads
`this.options` / `this.useSession` / `this.sessionId` and writes no field of
`this` — in particular it never touches `this.commands`, `this.queue` or
`this.connected`. -/
def buildCommandOn (cfg : ClientConfig) (s : ClientState) (guid : String)
    (script : String) (bindings : Option Bindings) (message : Option MessageObj) :
    ClientState × MessageObj :=
  (s, buildCommand cfg guid script bindings message)

/-! ### Binary frame packing (`packMessageToBinary`) -/

/-- UTF-8 encoding of one Unicode code point, as byte values. -/
def utf8EncodeChar (c : Nat) : List Nat :=
  if c < 0x80 then [c]
  else if c < 0x800 then [0xC0 + c / 0x40, 0x80 + c % 0x40]
  else if c < 0x10000 then
    [0xE0 + c / 0x1000, 0x80 + c / 0x40 % 0x40, 0x80 + c % 0x40]
  else
    [0xF0 + c / 0x40000, 0x80 + c / 0x1000 % 0x40, 0x80 + c / 0x40 % 0x40, 0x80 + c % 0x40]

/-- `unescape(encodeURIComponent(s))`: re-encode a string so every resulting
code unit is one UTF-8 byte of the original.  Strings are modelled as lists
of Unicode code points; the result is the list of UTF-8 bytes. -/
def utf8Escape (s : List Nat) : List Nat :=
  s.flatMap utf8EncodeChar

/-- The code points of a Lean string literal, for concrete instances. -/
def strCodes (s : String) : List Nat :=
  s.toList.map Char.toNat

/-- Embeds `GremlinClient.prototype.packMessageToBinary`.  `optionsAccept` is
`this.options.accept`, `messageArgsAccept` is `message.args.accept`, and
`messageJson` is `JSON.stringify(message)` (the serializer is external), all
as code-point lists.  `serializedMessage = message.args.accept +
JSON.stringify(message)` is then escaped to single-byte code units; the
`Uint8Array` holds `this.options.accept.length` in byte 0 (8-bit store, hence
`% 256`) followed by `serializedMessage.charCodeAt(i)` for each i. -/
def packMessageToBinary (optionsAccept messageArgsAccept messageJson : List Nat) :
    List Nat :=
  let serializedMessage := utf8Escape (messageArgsAccept ++ messageJson)
  (optionsAccept.length % 256) :: serializedMessage.map (fun b => b % 256)

/-- Modelled from the spec: the unpacking direction of the binary-pack
round-trip test harness (the repository ships no unpacker) — read byte 0 as
the accept-type length prefix, split the rest there into accept bytes and
message bytes. -/
def unpackBinary (bytes : List Nat) : Option (Nat × List Nat × List Nat) :=
  match bytes with
  | [] => none
  | n :: rest => some (n, rest.take n, rest.drop n)

/-! ### Incremental-mode stream (`stream`) -/

/-- Highland pipeline of `GremlinClient.prototype.stream`:
`_.map(message => message.result.data)` followed by `_.sequence()`, which
flattens the mapped stream of sequences into one value per element.  Applied
to the data frames a command's sink delivers, it yields the consumer-visible
incremental events. -/
def streamPipeline (frames : List RawMessage) : List Nat :=
  (frames.map (fun m => m.resultData)).flatten

/-! ### Concrete fixtures used by witnesses and counterexamples -/

/-- An ordinary (`op: 'eval'`) command with requestId `"r1"`. -/
def evalCmd : Command :=
  { message := { requestId := "r1", op := "eval" }, sinkId := 0 }

/-- An authentication command with requestId `"auth-1"`. -/
def authCmd : Command :=
  { message := { requestId := "auth-1", op := "authentication" }, sinkId := 1 }

/-- A connected client with `evalCmd` pending in the correlation table. -/
def pendingState : ClientState :=
  { connected := true, queue := [], commands := [("r1", evalCmd)],
    lastAuthenticationReqId := none }

/-- A frame for requestId `"r1"` with a given status code and message. -/
def frameFor (code : Nat) (msg : String) : RawMessage :=
  { requestId := "r1", status := { code := code, message := msg }, resultData := [] }

/-- A frame whose requestId matches no pending command. -/
def strayFrame : RawMessage :=
  { requestId := "zzz", status := { code := 200, message := "" }, resultData := [] }

/-- A disconnected client with `evalCmd` waiting in the queue (submitted
before the socket opened). -/
def queuedState : ClientState :=
  { connected := false, queue := [evalCmd], commands := [("r1", evalCmd)],
    lastAuthenticationReqId := none }

/-- Client after `sendCommand(authCmd)` from the initial (still disconnected)
state: the authentication override slot holds `"auth-1"`. -/
def authSentState : ClientState :=
  (sendCommand initialState authCmd).1

/-- Client after the socket then closes: the correlation table is cleared by
`cancelPendingCommands` but `lastAuthenticationReqId` is still `"auth-1"`. -/
def authClosedState : ClientState :=
  (handleDisconnection authSentState 0).1

/-- Client whose socket opened (connected = true). -/
def openedState : ClientState :=
  (onConnectionOpen initialState).1

/-- Client whose socket opened and then closed: `handleDisconnection` never
resets `connected`, so it is still `true`. -/
def openedThenClosedState : ClientState :=
  (handleDisconnection openedState 3).1

/-- Default client configuration (`options` defaults of the constructor):
accept `application/json`, language `gremlin-groovy`, processor `''`,
op `eval`, session mode off. -/
def defaultCfg : ClientConfig :=
  { accept := "application/json", language := "gremlin-groovy", processor := "",
    op := "eval", useSession := false, sessionId := "" }

/-- Default configuration with session mode enabled. -/
def sessionCfg : ClientConfig :=
  { defaultCfg with useSession := true, sessionId := "sess-1" }

/-- A message-overrides object that pins the requestId. -/
def fixedIdMsg : MessageObj :=
  { requestId := some "fixed-id" }

/-- A message-overrides object with no properties set. -/
def emptyMsg : MessageObj :=
  { }

/-- A message-overrides object carrying an (empty) nested args bag. -/
def argsMsg : MessageObj :=
  { args := some { } }

/-- Code points of the default accept type `"application/json"` (16 chars). -/
def acceptJson : List Nat :=
  strCodes "application/json"

/-- Code points of an overridden accept type `"application/xml"` (15 chars). -/
def acceptXml : List Nat :=
  strCodes "application/xml"

/-- Code points standing in for `JSON.stringify(message)` in the packing
counterexample (contents irrelevant to the framing). -/
def sampleJson : List Nat :=
  strCodes "x"

/-! ### Helper lemmas -/

/-- On a matched frame, `handleMessage` is the four-way status dispatch. -/
lemma handleMessage_matched (s : ClientState) (raw : RawMessage) (command : Command)
    (hmatch : objGet s.commands (effectiveRequestId s raw) = some command) :
    handleMessage s raw =
      if raw.status.code = 200 then
        ({ consumeAuthSlot s with commands := objDelete s.commands (effectiveRequestId s raw) },
         [Effect.sinkPush command.sinkId raw, Effect.sinkNull command.sinkId])
      else if raw.status.code = 204 then
        ({ consumeAuthSlot s with commands := objDelete s.commands (effectiveRequestId s raw) },
         [Effect.sinkNull command.sinkId])
      else if raw.status.code = 206 then
        (consumeAuthSlot s, [Effect.sinkPush command.sinkId raw])
      else
        ({ consumeAuthSlot s with commands := objDelete s.commands (effectiveRequestId s raw) },
         [Effect.sinkError command.sinkId
            (raw.status.message ++ " (Error " ++ toString raw.status.code ++ ")") none]) := by
  have hm1 : objGet (consumeAuthSlot s).commands (effectiveRequestId s raw) = some command :=
    hmatch
  simp only [handleMessage, hm1]
  split <;> simp_all [consumeAuthSlot, objDelete]

/-- Every run of `handleMessage` leaves the authentication-override slot
reset to null. -/
lemma handleMessage_slot_reset (s : ClientState) (raw : RawMessage) :
    (handleMessage s raw).1.lastAuthenticationReqId = none := by
  simp only [handleMessage]
  split
  · rfl
  · split <;> rfl

/-! ### Claims -/

/-- C1: for every inbound frame whose correlation token matches a pending
command in the correlation table, `handleMessage` dispatches exhaustively on
the status code: 200 removes the command and pushes the frame then a terminal
null; 204 removes the command and pushes only a terminal null; 206 pushes the
frame as one data item and leaves the command in the table; any other code
removes the command and emits an error on its sink carrying the
server-supplied status message and the numeric status code. -/
theorem handleMessage_status_dispatch (s : ClientState) (raw : RawMessage) (command : Command)
    (hmatch : objGet s.commands (effectiveRequestId s raw) = some command) :
    (raw.status.code = 200 →
      handleMessage s raw =
        ({ consumeAuthSlot s with commands := objDelete s.commands (effectiveRequestId s raw) },
         [Effect.sinkPush command.sinkId raw, Effect.sinkNull command.sinkId])) ∧
    (raw.status.code = 204 →
      handleMessage s raw =
        ({ consumeAuthSlot s with commands := objDelete s.commands (effectiveRequestId s raw) },
         [Effect.sinkNull command.sinkId])) ∧
    (raw.status.code = 206 →
      handleMessage s raw = (consumeAuthSlot s, [Effect.sinkPush command.sinkId raw])) ∧
    (raw.status.code ≠ 200 → raw.status.code ≠ 204 → raw.status.code ≠ 206 →
      handleMessage s raw =
        ({ consumeAuthSlot s with commands := objDelete s.commands (effectiveRequestId s raw) },
         [Effect.sinkError command.sinkId
            (raw.status.message ++ " (Error " ++ toString raw.status.code ++ ")") none])) := by
  have h := handleMessage_matched s raw command hmatch
  refine ⟨?_, ?_, ?_, ?_⟩
  · intro h200
    rw [h, if_pos h200]
  · intro h204
    rw [h, if_neg (by simp [h204]), if_pos h204]
  · intro h206
    rw [h, if_neg (by simp [h206]), if_neg (by simp [h206]), if_pos h206]
  · intro h200 h204 h206
    rw [h, if_neg h200, if_neg h204, if_neg h206]

/-- Witness for C1: on a connected client with one pending command keyed
`"r1"`, frames with codes 200, 204, 206 and 500 produce exactly the four
specified outcomes. -/
theorem handleMessage_status_dispatch_witness :
    handleMessage pendingState (frameFor 200 "ok") =
      ({ pendingState with commands := [] },
       [Effect.sinkPush 0 (frameFor 200 "ok"), Effect.sinkNull 0]) ∧
    handleMessage pendingState (frameFor 204 "none") =
      ({ pendingState with commands := [] }, [Effect.sinkNull 0]) ∧
    handleMessage pendingState (frameFor 206 "more") =
      (pendingState, [Effect.sinkPush 0 (frameFor 206 "more")]) ∧
    handleMessage pendingState (frameFor 500 "boom") =
      ({ pendingState with commands := [] },
       [Effect.sinkError 0 "boom (Error 500)" none]) := by
  refine ⟨?_, ?_, ?_, ?_⟩
  · have h :=
      (handleMessage_status_dispatch pendingState (frameFor 200 "ok") evalCmd (by decide)).1 rfl
    simpa [pendingState, consumeAuthSlot, objDelete, evalCmd, frameFor] using h
  · have h :=
      (handleMessage_status_dispatch pendingState (frameFor 204 "none") evalCmd
        (by decide)).2.1 rfl
    simpa [pendingState, consumeAuthSlot, objDelete, evalCmd, frameFor] using h
  · have h :=
      (handleMessage_status_dispatch pendingState (frameFor 206 "more") evalCmd
        (by decide)).2.2.1 rfl
    simpa [pendingState, consumeAuthSlot, evalCmd, frameFor] using h
  · have h :=
      (handleMessage_status_dispatch pendingState (frameFor 500 "boom") evalCmd
        (by decide)).2.2.2 (by decide) (by decide) (by decide)
    simpa [pendingState, consumeAuthSlot, objDelete, evalCmd, frameFor] using h

/-- C2 (amended): on connection close, the pending queue and the correlation
table are cleared in one step and every command that was in the table — which
includes every command waiting in the queue, since `sendCommand` registers a
command in the table before queueing it — receives exactly one error event
with the fixed reason string `"WebSocket closed"` (not `"connection closed"`)
and the same close-detail payload. -/
theorem close_cancels_all_pending (s : ClientState) (event : Nat)
    (hq : ∀ c ∈ s.queue, objGet s.commands c.message.requestId = some c) :
    (handleDisconnection s event).1.commands = [] ∧
    (handleDisconnection s event).1.queue = [] ∧
    (handleDisconnection s event).2 =
      s.commands.map (fun kv => Effect.sinkError kv.2.sinkId "WebSocket closed" (some event)) ∧
    ∀ c ∈ s.queue,
      Effect.sinkError c.sinkId "WebSocket closed" (some event) ∈
        (handleDisconnection s event).2 := by
  refine ⟨rfl, rfl, rfl, ?_⟩
  intro c hc
  have h := hq c hc
  unfold objGet at h
  rcases hfind : s.commands.find? (fun p => p.1 = c.message.requestId) with _ | p
  · rw [hfind] at h
    cases h
  · rw [hfind] at h
    have hmem := List.mem_of_find?_eq_some hfind
    have hp2 : p.2 = c := by simpa using h
    show Effect.sinkError c.sinkId "WebSocket closed" (some event) ∈
      s.commands.map (fun kv => Effect.sinkError kv.2.sinkId "WebSocket closed" (some event))
    exact List.mem_map.mpr ⟨p, hmem, by rw [hp2]⟩

/-- Witness for C2: a client with one command both queued and registered;
after close the table and queue are empty and the single error event carries
reason `"WebSocket closed"` and detail payload `7`. -/
theorem close_cancels_all_pending_witness :
    (handleDisconnection queuedState 7).1.commands = [] ∧
    (handleDisconnection queuedState 7).1.queue = [] ∧
    (handleDisconnection queuedState 7).2 =
      queuedState.commands.map
        (fun kv => Effect.sinkError kv.2.sinkId "WebSocket closed" (some 7)) := by
  have h := close_cancels_all_pending queuedState 7 (by decide)
  exact ⟨h.1, h.2.1, h.2.2.1⟩

/-- Counterexample for C2 as stated: the close reason the sink receives is
the string `"WebSocket closed"`, not `"connection closed"`. -/
theorem close_reason_string_cex :
    (handleDisconnection pendingState 7).2 =
      [Effect.sinkError 0 "WebSocket closed" (some 7)] ∧
    Effect.sinkError 0 "WebSocket closed" (some 7) ≠
      Effect.sinkError 0 "connection closed" (some 7) := by
  exact ⟨rfl, by decide⟩

/-- C3 (amended): on the connection-open event the client sets its state to
connected, signals the connect event to the caller FIRST, and only then
transmits every queued command, in strict FIFO arrival order, leaving the
queue empty as part of the same handler run (no partial flush observable). -/
theorem onOpen_connect_then_fifo_flush (s : ClientState) :
    (onConnectionOpen s).1 = { s with connected := true, queue := [] } ∧
    (onConnectionOpen s).2 =
      Effect.emitConnect :: s.queue.map (fun c => Effect.wsSend c.message) := by
  exact ⟨rfl, rfl⟩

/-- Counterexample for C3 as stated: with one queued command, the effect
sequence of the open handler is the connect signal FOLLOWED by the transport
send — not the send followed by the connect signal, as the claim requires. -/
theorem onOpen_connect_order_cex :
    (onConnectionOpen queuedState).2 =
      [Effect.emitConnect, Effect.wsSend evalCmd.message] ∧
    (onConnectionOpen queuedState).2 ≠
      [Effect.wsSend evalCmd.message, Effect.emitConnect] := by
  exact ⟨rfl, by decide⟩

/-- C4 (amended): a frame whose (possibly overridden) correlation token
matches no pending command produces no sink event, no exception and no
change to the correlation table, the pending queue or the connected flag;
the one exception to "no state change" is the authentication-override slot,
which `handleMessage` consumes (resets to null) whenever it was set — so when
the slot was already null the call is a complete no-op. -/
theorem unmatched_frame_noop (s : ClientState) (raw : RawMessage)
    (hmiss : objGet s.commands (effectiveRequestId s raw) = none) :
    handleMessage s raw = (consumeAuthSlot s, []) ∧
    (s.lastAuthenticationReqId = none → handleMessage s raw = (s, [])) := by
  have hm1 : objGet (consumeAuthSlot s).commands (effectiveRequestId s raw) = none := hmiss
  have hbase : handleMessage s raw = (consumeAuthSlot s, []) := by
    simp only [handleMessage, hm1]
  refine ⟨hbase, fun hslot => ?_⟩
  rw [hbase]
  cases s
  simp_all [consumeAuthSlot]

/-- Witness for C4: a stray frame (`requestId "zzz"`) against a client whose
table only holds `"r1"` and whose override slot is null leaves the state
entirely unchanged and emits nothing. -/
theorem unmatched_frame_noop_witness :
    handleMessage pendingState strayFrame = (pendingState, []) := by
  exact (unmatched_frame_noop pendingState strayFrame (by decide)).2 rfl

/-- Counterexample for C4 as stated: after an authentication command is
submitted and the connection then closes, the table is empty but the
override slot still holds `"auth-1"`; the next frame matches no pending
command, yet `handleMessage` changes the client state (it consumes the
slot), so the call is not a complete no-op. -/
theorem unmatched_frame_slot_cex :
    authClosedState.commands = [] ∧
    authClosedState.lastAuthenticationReqId = some "auth-1" ∧
    (handleMessage authClosedState strayFrame).2 = [] ∧
    (handleMessage authClosedState strayFrame).1 ≠ authClosedState := by
  decide

/-- C5: if the most recently sent command is an authentication-class
operation (`op = 'authentication'`), the override slot holds its requestId,
the next frame processed has its correlation token overridden to that
requestId regardless of what the frame states, and the override is consumed:
after that single frame the slot is null again, so the following frame is
correlated by its own token. -/
theorem auth_override_single_use (s : ClientState) (c : Command) (raw raw2 : RawMessage)
    (hop : c.message.op = "authentication") :
    (sendCommand s c).1.lastAuthenticationReqId = some c.message.requestId ∧
    effectiveRequestId (sendCommand s c).1 raw = c.message.requestId ∧
    (handleMessage (sendCommand s c).1 raw).1.lastAuthenticationReqId = none ∧
    effectiveRequestId (handleMessage (sendCommand s c).1 raw).1 raw2 = raw2.requestId := by
  have hslot : (sendCommand s c).1.lastAuthenticationReqId = some c.message.requestId := by
    simp only [sendCommand, hop]
    split
    · split <;> rfl
    · simp_all
  refine ⟨hslot, ?_, handleMessage_slot_reset _ _, ?_⟩
  · simp [effectiveRequestId, hslot]
  · simp [effectiveRequestId, handleMessage_slot_reset]

/-- Witness for C5: after sending `authCmd` (requestId `"auth-1"`), a frame
claiming requestId `"zzz"` is correlated as `"auth-1"`, and the very next
frame is correlated by its own token again. -/
theorem auth_override_single_use_witness :
    authSentState.lastAuthenticationReqId = some "auth-1" ∧
    effectiveRequestId authSentState strayFrame = "auth-1" ∧
    (handleMessage authSentState strayFrame).1.lastAuthenticationReqId = none ∧
    effectiveRequestId (handleMessage authSentState strayFrame).1 strayFrame = "zzz" := by
  exact auth_override_single_use initialState authCmd strayFrame strayFrame rfl

/-- C6 (amended): after the close event the client still registers a newly
submitted command in the correlation table and the submit call itself never
rejects, but `handleDisconnection` does not clear the connected flag — so if
the connection had been opened before closing, a submit after close still
attempts a transport send; only when the close happened before any open
(client still disconnected) is the command enqueued with no send attempt. -/
theorem submit_after_close (s : ClientState) (event : Nat) (c : Command) :
    (handleDisconnection s event).1.connected = s.connected ∧
    objGet (sendCommand (handleDisconnection s event).1 c).1.commands c.message.requestId =
      some c ∧
    (s.connected = true →
      (sendCommand (handleDisconnection s event).1 c).2 = [Effect.wsSend c.message]) ∧
    (s.connected = false →
      (sendCommand (handleDisconnection s event).1 c).2 = [] ∧
      (sendCommand (handleDisconnection s event).1 c).1.queue = [c]) := by
  have hstate : (handleDisconnection s event).1 = { s with queue := [], commands := [] } :=
    rfl
  refine ⟨rfl, ?_, ?_, ?_⟩
  · rw [hstate]
    simp only [sendCommand]
    split <;> split <;> simp [objSet, objGet]
  · intro hconn
    rw [hstate]
    simp only [sendCommand, sendMessage]
    split <;> simp [hconn]
  · intro hconn
    rw [hstate]
    simp only [sendCommand]
    split <;> simp [hconn]

/-- Witness for C6: submitting after a close that followed an open attempts
a transport send; submitting after a close that preceded any open only
enqueues. -/
theorem submit_after_close_witness :
    (sendCommand openedThenClosedState evalCmd).2 = [Effect.wsSend evalCmd.message] ∧
    (sendCommand (handleDisconnection initialState 5).1 evalCmd).2 = [] := by
  have h1 := (submit_after_close openedState 3 evalCmd).2.2.1 (by decide)
  have h2 := (submit_after_close initialState 5 evalCmd).2.2.2 (by decide)
  exact ⟨h1, h2.1⟩

/-- Counterexample for C6 as stated: open, then close, then submit — the
connected flag is still true after the close, and the submit does attempt a
transport send, contradicting "no transport send occurs until a new
connection instance is created". -/
theorem submit_after_close_sends_cex :
    openedThenClosedState.connected = true ∧
    (sendCommand openedThenClosedState evalCmd).2 = [Effect.wsSend evalCmd.message] ∧
    (sendCommand openedThenClosedState evalCmd).2 ≠ [] := by
  decide

/-- C7: evaluation of `packMessageToBinary` at a failing input.  The length
byte written at position 0 is `this.options.accept.length` (here 16, for
`"application/json"`), but the accept-type bytes actually written come from
`message.args.accept` (here the 15-byte `"application/xml"`), so the length
byte does not equal the length of the accept-type string actually written
and unpacking recovers a 16-byte "accept" slice that is not the accept
written — the round-trip of the claim fails whenever the per-call accept
differs from the client-level one. -/
theorem packMessageToBinary_length_byte_bug :
    packMessageToBinary acceptJson acceptXml sampleJson =
      16 :: utf8Escape (acceptXml ++ sampleJson) ∧
    acceptXml.length = 15 ∧
    (16 : Nat) ≠ acceptXml.length ∧
    unpackBinary (packMessageToBinary acceptJson acceptXml sampleJson) =
      some (16, utf8Escape acceptXml ++ utf8Escape sampleJson, []) ∧
    utf8Escape acceptXml ++ utf8Escape sampleJson ≠ utf8Escape acceptXml := by
  decide

/-- C8: the incremental-mode pipeline flattens frames into one
consumer-visible event per logical value in original order: it is a monoid
homomorphism from frame sequences to value sequences, a single frame yields
exactly its `result.data` values (so 3 values yield 3 events), and the total
event count is the sum of the frames' `result.data` lengths. -/
theorem stream_flattening_homomorphism (frames frames2 : List RawMessage) (f : RawMessage) :
    streamPipeline (frames ++ frames2) = streamPipeline frames ++ streamPipeline frames2 ∧
    streamPipeline [f] = f.resultData ∧
    (streamPipeline frames).length = (frames.map (fun m => m.resultData.length)).sum ∧
    streamPipeline frames = frames.flatMap (fun m => m.resultData) := by
  refine ⟨?_, ?_, ?_, ?_⟩
  · simp [streamPipeline]
  · simp [streamPipeline]
  · simp only [streamPipeline, List.length_flatten, List.map_map]
    rfl
  · simp [streamPipeline, List.flatMap]

/-- C9 (amended): `buildCommand` generates a fresh token on every call and
uses it as the message's requestId whenever the caller-supplied overrides do
not carry a `requestId` of their own — in that case any two build calls
drawing distinct generator tokens produce distinct requestIds; but a
`requestId` supplied in the overrides object takes precedence over the fresh
token (lodash `defaults` fills only absent fields). -/
theorem buildCommand_fresh_requestId (cfg cfg2 : ClientConfig) (g1 g2 scr1 scr2 : String)
    (b1 b2 : Option Bindings) (m1 m2 : Option MessageObj)
    (h1 : m1.bind (·.requestId) = none) (h2 : m2.bind (·.requestId) = none)
    (hg : g1 ≠ g2) :
    (buildCommand cfg g1 scr1 b1 m1).requestId = some g1 ∧
    (buildCommand cfg2 g2 scr2 b2 m2).requestId = some g2 ∧
    (buildCommand cfg g1 scr1 b1 m1).requestId ≠ (buildCommand cfg2 g2 scr2 b2 m2).requestId := by
  have key : ∀ (cfg : ClientConfig) (g scr : String) (b : Option Bindings)
      (m : Option MessageObj), m.bind (·.requestId) = none →
      (buildCommand cfg g scr b m).requestId = some g := by
    intro cfg g scr b m hm
    have hdst : (m.getD { }).requestId = none := by
      cases m with
      | none => rfl
      | some mo => simpa using hm
    simp only [buildCommand, messageDefaults]
    split <;> simp [hdst]
  refine ⟨key cfg g1 scr1 b1 m1 h1, key cfg2 g2 scr2 b2 m2 h2, ?_⟩
  rw [key cfg g1 scr1 b1 m1 h1, key cfg2 g2 scr2 b2 m2 h2]
  simp [hg]

/-- Witness for C9: with no requestId override, two calls drawing the
generator tokens `"uuid-0"` and `"uuid-1"` carry those tokens as their
requestIds, and they differ. -/
theorem buildCommand_fresh_requestId_witness :
    (buildCommand defaultCfg "uuid-0" "1+1" none none).requestId = some "uuid-0" ∧
    (buildCommand defaultCfg "uuid-1" "1+1" none (some emptyMsg)).requestId = some "uuid-1" ∧
    (buildCommand defaultCfg "uuid-0" "1+1" none none).requestId ≠
      (buildCommand defaultCfg "uuid-1" "1+1" none (some emptyMsg)).requestId := by
  exact buildCommand_fresh_requestId defaultCfg defaultCfg "uuid-0" "uuid-1" "1+1" "1+1"
    none none none (some emptyMsg) rfl rfl (by decide)

/-- Counterexample for C9 as stated: when the message-overrides object pins
`requestId: "fixed-id"`, two build calls (with distinct freshly generated
tokens `"uuid-0"` and `"uuid-1"`) both return a message whose requestId is
`"fixed-id"` — the identifier is not the one produced on that call, and the
two calls' requestIds are not distinct. -/
theorem buildCommand_requestId_override_cex :
    (buildCommand defaultCfg "uuid-0" "1+1" none (some fixedIdMsg)).requestId =
      some "fixed-id" ∧
    (buildCommand defaultCfg "uuid-1" "1+1" none (some fixedIdMsg)).requestId =
      some "fixed-id" ∧
    some "fixed-id" ≠ some "uuid-0" ∧
    ("uuid-0" : String) ≠ "uuid-1" := by
  decide

/-- C10 (amended): `buildCommand` writes no client field — the correlation
table, pending queue and connection state are exactly those of the state it
was called in — and never modifies the caller-supplied bindings object; but
it DOES mutate the caller-supplied message-overrides object in place: lodash
`defaults` fills every absent top-level field (requestId, processor, op,
args) and absent args field into the destination object itself, and session
mode assigns `processor` and `args.session` directly, so after the call the
caller's object is the fully populated message. -/
theorem buildCommand_frame_effects (cfg : ClientConfig) (s : ClientState) (g scr : String)
    (b : Option Bindings) (m : Option MessageObj) (bnd : Bindings) (mm : MessageObj) :
    (buildCommandOn cfg s g scr b m).1 = s ∧
    (buildCommandOn cfg s g scr b m).1.commands = s.commands ∧
    (buildCommandOn cfg s g scr b m).1.queue = s.queue ∧
    (buildCommandOn cfg s g scr b m).1.connected = s.connected ∧
    bindingsAfterBuild bnd = bnd ∧
    (messageObjAfterBuild cfg g scr b mm).requestId.isSome = true ∧
    (messageObjAfterBuild cfg g scr b mm).processor.isSome = true ∧
    (messageObjAfterBuild cfg g scr b mm).op.isSome = true ∧
    (messageObjAfterBuild cfg g scr b mm).args.isSome = true := by
  refine ⟨rfl, rfl, rfl, rfl, rfl, ?_, ?_, ?_, ?_⟩ <;>
    · simp only [messageObjAfterBuild, buildCommand, messageDefaults]
      split <;> simp

/-- Counterexample for C10 as stated: an overrides object passed with no
fields (and, in session mode, one with an empty args bag) is not left
unmodified — after the call it carries `op: 'eval'` (and its args bag
carries the session id), whereas before the call those properties were
absent. -/
theorem buildCommand_mutates_overrides_cex :
    messageObjAfterBuild defaultCfg "uuid-0" "1+1" none emptyMsg ≠ emptyMsg ∧
    (messageObjAfterBuild defaultCfg "uuid-0" "1+1" none emptyMsg).op = some "eval" ∧
    emptyMsg.op = none ∧
    (messageObjAfterBuild sessionCfg "uuid-0" "1+1" none argsMsg).args.map (·.session) =
      some (some "sess-1") ∧
    argsMsg.args.map (·.session) = some none := by
  decide

end Gremlin
